import Mathlib

/-!
Verification development for the bau-dash ticket-analytics dashboard.

The repository (src/app.py, src/app2.py) loads a CSV of service-desk
tickets into a pandas DataFrame, derives per-ticket fields (priority
rank, resolution duration, SLA target, SLA met) and aggregates them
(compliance rates, contract penalties, data-quality rule counts,
monthly channel pivot).

Shallow embedding conventions:
* a ticket row is a `Ticket`; a missing cell (pandas NaN/NaT) is `none`;
* timestamps are rationals, measured in hours since an arbitrary epoch;
* pandas comparison semantics on missing values are preserved:
  a comparison with NaN/NaT yields `False`, `isin` on NaN yields `False`;
* `df.astype(int)` on a column containing NaN raises, which we model
  with `Except`;
* DataFrame column arithmetic becomes per-row functions, groupby/agg
  becomes `List.countP` / sums over filtered lists.
-/

/-- One raw ticket row after CSV parsing (load_data input).
`none` models a missing cell (pandas NaN/NaT). Timestamps are in hours. -/
structure Ticket where
  number : String
  openedAt : Option ℚ
  resolvedAt : Option ℚ
  priorityLabel : Option String
  state : Option String
  channel : Option String
  assignmentGroup : Option String
  assignedTo : Option String
  configurationItem : Option String
  shortDescription : Option String
  deriving DecidableEq, Repr

/-- OPEN_STATES constant of app.py / app2.py. -/
def OPEN_STATES : List String :=
  ["Active", "Work In Progress", "Awaiting User Info", "New"]

/-- CLOSED_STATES constant of app.py / app2.py. -/
def CLOSED_STATES : List String := ["Closed", "Resolved", "Cancelled"]

/-- `Series.str.extract(r'(\d+)')` on one cell: the first maximal run of
digits in the string, as a number; `none` when the string has no digit
or the cell is missing. -/
def strExtractDigits (cell : Option String) : Option Nat :=
  match cell with
  | none => none
  | some s =>
    let run := (s.data.dropWhile (fun c => !c.isDigit)).takeWhile (fun c => c.isDigit)
    if run.isEmpty then none
    else some (run.foldl (fun n c => 10 * n + (c.toNat - 48)) 0)

/-- `.astype(int)` over the extracted column: succeeds with the list of
ranks only when every cell extracted a digit; raises (models pandas
IntCastingNaNError) as soon as one cell is NaN. -/
def astypeInt : List (Option Nat) → Except String (List Nat)
  | [] => Except.ok []
  | none :: _ => Except.error "IntCastingNaNError"
  | some n :: xs =>
    match astypeInt xs with
    | Except.ok v => Except.ok (n :: v)
    | Except.error e => Except.error e

/-- The priority-rank derivation of load_data applied to the whole
Priority column:
`df[COL_PRIORITY].str.extract(r'(\d+)').astype(int)`. -/
def loadPriorityRanks (labels : List (Option String)) : Except String (List Nat) :=
  astypeInt (labels.map strExtractDigits)

/-- Per-row priority rank (`Priority_Numeric`), as an option: the value the
row carries when the whole-column cast succeeded. -/
def priorityNumericOf (t : Ticket) : Option Nat :=
  strExtractDigits t.priorityLabel

/-- `Resolution_Days = (Resolved - Opened).total_seconds() / (24*3600)`:
undefined (NaN) when either endpoint is missing. -/
def resolutionDaysOf (t : Ticket) : Option ℚ :=
  t.openedAt.bind fun o => t.resolvedAt.map fun r => (r - o) / 24

/-- `Resolution_Hours = Resolution_Days * 24`. -/
def resolutionHoursOf (t : Ticket) : Option ℚ :=
  (resolutionDaysOf t).map (fun d => d * 24)

/-- app.py SLA target map `{1: 4, 2: 8, 3: 24, 4: 72}`; `Series.map`
yields NaN outside the map's keys. -/
def targetGeneric (rank : Nat) : Option ℚ :=
  match rank with
  | 1 => some 4
  | 2 => some 8
  | 3 => some 24
  | 4 => some 72
  | _ => none

/-- app2.py BUMA SLA target map `{1: 4, 2: 8, 3: 40, 4: 160}`. -/
def targetBuma (rank : Nat) : Option ℚ :=
  match rank with
  | 1 => some 4
  | 2 => some 8
  | 3 => some 40
  | 4 => some 160
  | _ => none

/-- app2.py `Resolution_Credit_Pct` map `{1: 18, 2: 12, 3: 10, 4: 6}`. -/
def resolutionCreditPct (rank : Nat) : Option ℚ :=
  match rank with
  | 1 => some 18
  | 2 => some 12
  | 3 => some 10
  | 4 => some 6
  | _ => none

/-- `SLA_Target_Hours`: the target map applied to the row's rank. -/
def slaTargetOf (tgt : Nat → Option ℚ) (t : Ticket) : Option ℚ :=
  (priorityNumericOf t).bind tgt

/-- `SLA_Met = Resolution_Hours <= SLA_Target_Hours` with pandas float
semantics: any comparison involving NaN is `False`, so the column is a
plain boolean column and a row with undefined duration (or an unmapped
rank) gets `False`, not a missing value. -/
def slaMetWith (tgt : Nat → Option ℚ) (t : Ticket) : Bool :=
  ((resolutionHoursOf t).bind fun h =>
    (slaTargetOf tgt t).map fun g => decide (h ≤ g)).getD false

/-- `group[COL_SLA_MET].mean()` over a list of rows: the boolean column has
no NaN, so the mean is (number of True rows) / (number of rows); pandas
mean of an empty group is NaN but every groupby bucket is non-empty, and
the guarded uses substitute 0.0, so the empty case is 0 here. -/
def slaComplianceRate (tgt : Nat → Option ℚ) (ts : List Ticket) : ℚ :=
  if ts.length = 0 then 0
  else (ts.countP (fun t => slaMetWith tgt t) : ℚ) / (ts.length : ℚ)

/-- Modelled from the spec (for comparison with the code): `sla_met` as an
*undefined-propagating* value — `none` when the duration or target is
undefined, `some (duration ≤ target)` otherwise. -/
def slaMetSpec (tgt : Nat → Option ℚ) (t : Ticket) : Option Bool :=
  (resolutionHoursOf t).bind fun h =>
    (slaTargetOf tgt t).map fun g => decide (h ≤ g)

/-- Modelled from the spec (for comparison with the code): the compliance
rate that excludes undefined `sla_met` values from both numerator and
denominator. -/
def slaComplianceRateSpec (tgt : Nat → Option ℚ) (ts : List Ticket) : ℚ :=
  let defined := ts.countP (fun t => (slaMetSpec tgt t).isSome)
  if defined = 0 then 0
  else (ts.countP (fun t => slaMetSpec tgt t = some true) : ℚ) / (defined : ℚ)

/-- One row of the per-priority SLA performance summary built by
render_buma_sla_tab (app2.py): the fields the loop body computes for one
observed priority rank. -/
structure SlaPerfRow where
  totalTickets : Nat
  resolutionCompliance : ℚ
  creditPct : ℚ
  resolutionPenalty : ℚ
  statusPass : Bool
  deriving DecidableEq, Repr

/-- The body of the render_buma_sla_tab loop for one priority rank `p`:
`priority_df = filtered_df[Priority_Numeric == p]`,
`resolution_compliance = priority_df[SLA_Met].mean()`,
`resolution_credit_pct = priority_df["Resolution_Credit_Pct"].iloc[0]`
(the map applied to `p`), and
`resolution_penalty = at_risk_amount * credit/100 if compliance < 0.90 else 0`.
The loop skips empty buckets, hence `none` there. -/
def slaPerfRowFor (atRisk : ℚ) (p : Nat) (filtered : List Ticket) : Option SlaPerfRow :=
  let bucket := filtered.filter (fun t => priorityNumericOf t = some p)
  if bucket.length = 0 then none
  else
    let compliance := slaComplianceRate targetBuma bucket
    let credit := (resolutionCreditPct p).getD 0
    let penalty := if compliance < 9/10 then atRisk * (credit / 100) else 0
    some
      { totalTickets := bucket.length
        resolutionCompliance := compliance
        creditPct := credit
        resolutionPenalty := penalty
        statusPass := decide (9/10 ≤ compliance) }

/-- One row of the RCA metrics table built by calculate_rca_metrics
(app2.py). -/
structure RcaRow where
  priority : Nat
  totalIncidents : Nat
  rcaCompletedOnTime : Nat
  rcaCompliance : ℚ
  penalty : ℚ
  statusPass : Bool
  deriving DecidableEq, Repr

/-- calculate_rca_metrics (app2.py): restrict to the rank's bucket, count
rows with `SLA_Met == True` as on-time RCA completions, compliance is the
guarded ratio, penalty percentage 4% for P1 and 3% otherwise, penalty 0
exactly when compliance is at least 95%. -/
def calculate_rca_metrics (atRisk : ℚ) (p : Nat) (filtered : List Ticket) : Option RcaRow :=
  let bucket := filtered.filter (fun t => priorityNumericOf t = some p)
  if bucket.length = 0 then none
  else
    let completed := bucket.countP (fun t => slaMetWith targetBuma t)
    let compliance : ℚ :=
      if 0 < bucket.length then (completed : ℚ) / (bucket.length : ℚ) else 0
    let penaltyPct : ℚ := if p = 1 then 4/100 else 3/100
    let penalty := if 95/100 ≤ compliance then 0 else atRisk * penaltyPct
    some
      { priority := p
        totalIncidents := bucket.length
        rcaCompletedOnTime := completed
        rcaCompliance := compliance
        penalty := penalty
        statusPass := decide (95/100 ≤ compliance) }

/-- The RCA table of render_buma_sla_tab: calculate_rca_metrics is invoked
for priority ranks 1 and 2 only, and a rank contributes a row only when
its bucket is non-empty. -/
def rcaMetricsList (atRisk : ℚ) (filtered : List Ticket) : List RcaRow :=
  [calculate_rca_metrics atRisk 1 filtered,
   calculate_rca_metrics atRisk 2 filtered].filterMap id

/-- `df[col].isna() | (df[col] == "")` on one cell. -/
def optStrMissing (cell : Option String) : Bool :=
  match cell with
  | none => true
  | some v => v = ""

/-- `df[COL_STATE].isin(l)` on one row; pandas isin is False on NaN. -/
def stateIn (l : List String) (t : Ticket) : Bool :=
  match t.state with
  | some s => l.contains s
  | none => false

/-- `opt > now` with pandas semantics: NaT compares False. -/
def optAfter (cell : Option ℚ) (now : ℚ) : Bool :=
  (cell.map fun v => decide (now < v)).getD false

/-- _check_unresolved_active: the displayed subset
`df[Resolved.isna() & State.isin([Active, WIP])]`. -/
def unresolvedActiveSubset (ts : List Ticket) : List Ticket :=
  ts.filter (fun t => t.resolvedAt = none && stateIn ["Active", "Work In Progress"] t)

/-- _check_unresolved_active displays its subset but returns the literal 0
(expected behaviour, not an issue). -/
def check_unresolved_active (ts : List Ticket) : Nat :=
  let _displayed := unresolvedActiveSubset ts
  0

/-- _check_missing_ci: the displayed subset
`df[ConfigItem.isna() | (ConfigItem == "CI_notfound")]`. -/
def missingCiSubset (ts : List Ticket) : List Ticket :=
  ts.filter (fun t =>
    t.configurationItem = none || t.configurationItem = some "CI_notfound")

/-- _check_missing_ci displays its subset but returns the literal 0. -/
def check_missing_ci (ts : List Ticket) : Nat :=
  let _displayed := missingCiSubset ts
  0

/-- _check_unusual_resolution:
`df[(Resolution_Days < 0) | (Resolution_Days > 365)]`; NaN rows compare
False on both sides and are excluded. -/
def unusualResolutionSubset (ts : List Ticket) : List Ticket :=
  ts.filter (fun t =>
    match resolutionDaysOf t with
    | some d => decide (d < 0) || decide (365 < d)
    | none => false)

/-- _check_unusual_resolution returns the size of its subset. -/
def check_unusual_resolution (ts : List Ticket) : Nat :=
  (unusualResolutionSubset ts).length

/-- _check_resolved_without_opened: `df[Opened.isna() & Resolved.notna()]`. -/
def resolvedWithoutOpenedSubset (ts : List Ticket) : List Ticket :=
  ts.filter (fun t => t.openedAt = none && t.resolvedAt ≠ none)

/-- _check_resolved_without_opened returns the size of its subset. -/
def check_resolved_without_opened (ts : List Ticket) : Nat :=
  (resolvedWithoutOpenedSubset ts).length

/-- _check_closed_without_resolution:
`df[State.isin(CLOSED_STATES) & Resolved.isna()]`. -/
def closedWithoutResolutionSubset (ts : List Ticket) : List Ticket :=
  ts.filter (fun t => stateIn CLOSED_STATES t && t.resolvedAt = none)

/-- _check_closed_without_resolution returns the size of its subset. -/
def check_closed_without_resolution (ts : List Ticket) : Nat :=
  (closedWithoutResolutionSubset ts).length

/-- _check_open_with_resolution:
`df[State.isin(OPEN_STATES) & Resolved.notna()]`. -/
def openWithResolutionSubset (ts : List Ticket) : List Ticket :=
  ts.filter (fun t => stateIn OPEN_STATES t && t.resolvedAt ≠ none)

/-- _check_open_with_resolution returns the size of its subset. -/
def check_open_with_resolution (ts : List Ticket) : Nat :=
  (openWithResolutionSubset ts).length

/-- _check_missing_critical_fields: for each of the five critical columns,
count rows with `isna() | == ""`, and return the sum of the five counts
(a row missing several fields is counted once per field). -/
def check_missing_critical_fields (ts : List Ticket) : Nat :=
  ts.countP (fun t => optStrMissing t.priorityLabel)
    + ts.countP (fun t => optStrMissing t.assignmentGroup)
    + ts.countP (fun t => optStrMissing t.assignedTo)
    + ts.countP (fun t => optStrMissing t.shortDescription)
    + ts.countP (fun t => optStrMissing t.state)

/-- _check_duplicate_tickets: `df[df.duplicated(subset=[Number], keep=False)]`
— every row whose ticket number occurs at least twice in the set. -/
def duplicateTicketsSubset (ts : List Ticket) : List Ticket :=
  ts.filter (fun t => 2 ≤ ts.countP (fun u => u.number = t.number))

/-- _check_duplicate_tickets returns the size of its subset. -/
def check_duplicate_tickets (ts : List Ticket) : Nat :=
  (duplicateTicketsSubset ts).length

/-- _check_future_dates: `len(df[Opened > now]) + len(df[Resolved > now])`
— the two filters are counted separately and added. -/
def check_future_dates (now : ℚ) (ts : List Ticket) : Nat :=
  (ts.filter (fun t => optAfter t.openedAt now)).length
    + (ts.filter (fun t => optAfter t.resolvedAt now)).length

/-- The future-dates violating subset in the sense of the spec: rows whose
opened or resolved timestamp lies strictly after the evaluation time. -/
def futureDatesSubset (now : ℚ) (ts : List Ticket) : List Ticket :=
  ts.filter (fun t => optAfter t.openedAt now || optAfter t.resolvedAt now)

/-- _check_orphaned_tickets: rows with empty assignment group, empty
assignee and an OPEN state. -/
def orphanedTicketsSubset (ts : List Ticket) : List Ticket :=
  ts.filter (fun t =>
    optStrMissing t.assignmentGroup && optStrMissing t.assignedTo
      && stateIn OPEN_STATES t)

/-- _check_orphaned_tickets returns the size of its subset. -/
def check_orphaned_tickets (ts : List Ticket) : Nat :=
  (orphanedTicketsSubset ts).length

/-- The accumulation in render_quality_tab: _check_unresolved_active and
_check_missing_ci are invoked but their results are discarded; the eight
remaining checks are summed into quality_issues_count. -/
def qualityIssuesCount (now : ℚ) (ts : List Ticket) : Nat :=
  let _ := check_unresolved_active ts
  let _ := check_missing_ci ts
  0 + check_unusual_resolution ts
    + check_resolved_without_opened ts
    + check_closed_without_resolution ts
    + check_open_with_resolution ts
    + check_missing_critical_fields ts
    + check_duplicate_tickets ts
    + check_future_dates now ts
    + check_orphaned_tickets ts

/-- _display_quality_score: `max(0, 100 - issue_count/total_tickets*100)`. -/
def qualityScore (issueCount totalTickets : Nat) : ℚ :=
  max 0 (100 - ((issueCount : ℚ) / (totalTickets : ℚ) * 100))

/-- render_quality_tab: returns early (no score) on an empty set, otherwise
displays the score of the accumulated count over the full row count. -/
def renderQualityScore (now : ℚ) (ts : List Ticket) : Option ℚ :=
  if ts.length = 0 then none
  else some (qualityScore (qualityIssuesCount now ts) ts.length)

/-- Lexicographic comparison of char lists by code point (the order
`sorted` uses on the pivot keys). -/
def charListLe : List Char → List Char → Bool
  | [], _ => true
  | _ :: _, [] => false
  | a :: as, b :: bs =>
    if a.toNat < b.toNat then true
    else if b.toNat < a.toNat then false
    else charListLe as bs

/-- Lexicographic string order by code point. -/
def strLe (a b : String) : Bool := charListLe a.data b.data

/-- Zero-pad a month number to two digits. -/
def pad2 (n : Nat) : String := if n < 10 then "0" ++ toString n else toString n

/-- Civil (year, month) of a day count since 1970-01-01 (proleptic
Gregorian), the calendar pandas `dt.to_period("M")` uses. -/
def civilYearMonth (z0 : Int) : Int × Nat :=
  let z := z0 + 719468
  let era : Int := Int.fdiv z 146097
  let doe : Int := z - era * 146097
  let yoe : Int :=
    Int.fdiv (doe - Int.fdiv doe 1460 + Int.fdiv doe 36524 - Int.fdiv doe 146096) 365
  let doy : Int := doe - (365 * yoe + Int.fdiv yoe 4 - Int.fdiv yoe 100)
  let mp : Int := Int.fdiv (5 * doy + 2) 153
  let m : Int := if mp < 10 then mp + 3 else mp - 9
  let y : Int := yoe + era * 400 + (if m ≤ 2 then 1 else 0)
  (y, m.toNat)

/-- `YearMonth = Opened.dt.to_period("M").astype(str)`: the "YYYY-MM"
string of the opened timestamp; pandas renders a missing date as "NaT". -/
def yearMonthOf (t : Ticket) : String :=
  match t.openedAt with
  | none => "NaT"
  | some h =>
    let ym := civilYearMonth ⌊h / 24⌋
    toString ym.1 ++ "-" ++ pad2 ym.2

/-- `filtered_df.dropna(subset=[COL_CHANNEL])`: the rows entering the
monthly channel pivot. -/
def channelRows (ts : List Ticket) : List Ticket :=
  ts.filter (fun t => t.channel ≠ none)

/-- The pivot's index: the channels observed among the non-null channel
rows (pivot_table sorts the index ascending). -/
def pivotChannels (ts : List Ticket) : List String :=
  List.insertionSort (fun a b => strLe a b = true)
    (((channelRows ts).filterMap (fun t => t.channel)).dedup)

/-- The pivot's columns: the YearMonth values observed among the non-null
channel rows, sorted ascending (`reindex(sorted(columns))`). -/
def pivotMonths (ts : List Ticket) : List String :=
  List.insertionSort (fun a b => strLe a b = true)
    (((channelRows ts).map yearMonthOf).dedup)

/-- One pivot cell: the groupby size for a (channel, month) pair;
`pivot_table(..., fill_value=0)` makes an absent pair an explicit 0. -/
def pivotCell (ts : List Ticket) (c m : String) : Nat :=
  (channelRows ts).countP (fun t => t.channel = some c && yearMonthOf t = m)

/-- The body of the pivot: one row per observed channel, one entry per
observed month. -/
def channelPivot (ts : List Ticket) : List (String × List Nat) :=
  (pivotChannels ts).map (fun c => (c, (pivotMonths ts).map (fun m => pivotCell ts c m)))

/-- `channel_pivot.sum().rename("Grand Total")`: per month, the sum of the
column over all channel rows. -/
def grandTotalRow (ts : List Ticket) : List Nat :=
  (pivotMonths ts).map (fun m => ((pivotChannels ts).map (fun c => pivotCell ts c m)).sum)

/-- `pd.concat([channel_pivot, grand_total_row])`. -/
def channelPivotWithTotal (ts : List Ticket) : List (String × List Nat) :=
  channelPivot ts ++ [("Grand Total", grandTotalRow ts)]

/-- Look a row key up in a keyed table (first row with the key). -/
def rowFor (rows : List (String × List Nat)) (c : String) : Option (List Nat) :=
  match rows with
  | [] => none
  | r :: rest => if r.1 = c then some r.2 else rowFor rest c

/-- Position of a month among the pivot columns. -/
def monthIndex (months : List String) (m : String) : Option Nat :=
  match months with
  | [] => none
  | a :: rest => if a = m then some 0 else (monthIndex rest m).map (fun i => i + 1)

/-- The cell a reader of the displayed pivot sees for channel `c` and
month `m`: defined only when both the row and the column exist. -/
def pivotLookup (rows : List (String × List Nat)) (months : List String)
    (c m : String) : Option Nat :=
  match rowFor rows c, monthIndex months m with
  | some vals, some i => vals.get? i
  | _, _ => none

/-- A P1 ticket resolved in one hour: meets the 4h target. -/
def tMet : Ticket :=
  { number := "INC001", openedAt := some 0, resolvedAt := some 1
    priorityLabel := some "P1", state := some "Closed", channel := some "Email"
    assignmentGroup := some "Network", assignedTo := some "Alice"
    configurationItem := some "CI1", shortDescription := some "vpn down" }

/-- A P1 ticket that was never resolved: its duration is undefined. -/
def tNoRes : Ticket :=
  { number := "INC002", openedAt := some 0, resolvedAt := none
    priorityLabel := some "P1", state := some "Active", channel := some "Phone"
    assignmentGroup := some "Network", assignedTo := some "Bob"
    configurationItem := some "CI2", shortDescription := some "slow wifi" }

/-- A P1 ticket resolved in ten hours: misses the 4h target. -/
def tP1missed : Ticket :=
  { number := "INC003", openedAt := some 0, resolvedAt := some 10
    priorityLabel := some "P1", state := some "Closed", channel := some "Email"
    assignmentGroup := some "Network", assignedTo := some "Alice"
    configurationItem := some "CI3", shortDescription := some "outage" }

/-- A closed ticket with no resolution date and four missing critical
fields: violates several quality rules at once. -/
def tBad : Ticket :=
  { number := "INC009", openedAt := none, resolvedAt := none
    priorityLabel := none, state := some "Closed", channel := none
    assignmentGroup := none, assignedTo := none
    configurationItem := none, shortDescription := none }

/-- A ticket used twice in the duplicate example. -/
def tA : Ticket :=
  { number := "INC010", openedAt := some 0, resolvedAt := some 1
    priorityLabel := some "P2", state := some "Closed", channel := some "Email"
    assignmentGroup := some "Desk", assignedTo := some "Carol"
    configurationItem := some "CI4", shortDescription := some "pw reset" }

/-- A ticket with a unique number. -/
def tB : Ticket :=
  { number := "INC011", openedAt := some 0, resolvedAt := some 1
    priorityLabel := some "P3", state := some "Closed", channel := some "Email"
    assignmentGroup := some "Desk", assignedTo := some "Dan"
    configurationItem := some "CI5", shortDescription := some "printer" }

/-- A ticket whose opened and resolved timestamps are both in the future
relative to evaluation time 0. -/
def tBothFuture : Ticket :=
  { number := "INC012", openedAt := some 100, resolvedAt := some 101
    priorityLabel := some "P4", state := some "Closed", channel := some "Email"
    assignmentGroup := some "Desk", assignedTo := some "Eve"
    configurationItem := some "CI6", shortDescription := some "typo" }

/-- The SlaPerfRow of a single met P1 ticket with at-risk amount 100. -/
def rowMetP1 : SlaPerfRow :=
  { totalTickets := 1, resolutionCompliance := 1, creditPct := 18
    resolutionPenalty := 0, statusPass := true }

/-- The SlaPerfRow of a single missed P1 ticket with at-risk amount 100. -/
def rowMissP1 : SlaPerfRow :=
  { totalTickets := 1, resolutionCompliance := 0, creditPct := 18
    resolutionPenalty := 18, statusPass := false }

/-- The RcaRow of a single met P1 ticket with at-risk amount 100. -/
def rcaRowP1 : RcaRow :=
  { priority := 1, totalIncidents := 1, rcaCompletedOnTime := 1
    rcaCompliance := 1, penalty := 0, statusPass := true }

/-- An Email-channel ticket opened in January 1970. -/
def tCh1 : Ticket :=
  { number := "INC020", openedAt := some 0, resolvedAt := some 1
    priorityLabel := some "P3", state := some "Closed", channel := some "Email"
    assignmentGroup := some "Desk", assignedTo := some "Fay"
    configurationItem := some "CI7", shortDescription := some "a" }

/-- An Email-channel ticket opened in February 1970. -/
def tCh2 : Ticket :=
  { number := "INC021", openedAt := some 744, resolvedAt := some 745
    priorityLabel := some "P3", state := some "Closed", channel := some "Email"
    assignmentGroup := some "Desk", assignedTo := some "Fay"
    configurationItem := some "CI8", shortDescription := some "b" }

/-- A Phone-channel ticket opened in February 1970: the Phone channel has
no January ticket, so the pivot must zero-fill that cell. -/
def tCh3 : Ticket :=
  { number := "INC022", openedAt := some 768, resolvedAt := some 769
    priorityLabel := some "P3", state := some "Closed", channel := some "Phone"
    assignmentGroup := some "Desk", assignedTo := some "Fay"
    configurationItem := some "CI9", shortDescription := some "c" }

/-- The boolean SLA_Met column is the undefined-propagating value with
`False` substituted for undefined (pandas comparison semantics). -/
theorem slaMetWith_getD (tgt : Nat → Option ℚ) (t : Ticket) :
    slaMetWith tgt t = (slaMetSpec tgt t).getD false := rfl

/-- Counting True cells of the boolean SLA_Met column is counting the
defined-and-met tickets. -/
theorem countP_slaMet_eq (tgt : Nat → Option ℚ) (ts : List Ticket) :
    ts.countP (fun t => slaMetWith tgt t) =
      ts.countP (fun t => decide (slaMetSpec tgt t = some true)) := by
  apply List.countP_congr
  intro t _
  rw [slaMetWith_getD]
  cases h : slaMetSpec tgt t with
  | none => simp [h]
  | some b => cases b <;> simp [h]

/-- Claim C1 (counterexample): a ticket with a missing resolved timestamp
has an undefined resolution duration, yet its SLA_Met value is the
defined boolean `false`, and the compliance-rate aggregation over a
two-ticket set (one met, one undefined) yields 1/2 — the undefined ticket
is counted in the denominator as a failure — whereas the rate that
excludes undefined values from numerator and denominator yields 1. -/
theorem sla_undefined_counterexample :
    resolutionHoursOf tNoRes = none ∧
    slaMetWith targetGeneric tNoRes = false ∧
    slaComplianceRate targetGeneric [tMet, tNoRes] = 1/2 ∧
    slaComplianceRateSpec targetGeneric [tMet, tNoRes] = 1 ∧
    slaComplianceRate targetGeneric [tMet, tNoRes] ≠
      slaComplianceRateSpec targetGeneric [tMet, tNoRes] := by
  have h1 : priorityNumericOf tMet = some 1 := by decide
  have h2 : priorityNumericOf tNoRes = some 1 := by decide
  have hr1 : resolutionHoursOf tMet = some 1 := by
    simp [resolutionHoursOf, resolutionDaysOf, tMet]
  have hr2 : resolutionHoursOf tNoRes = none := by rfl
  have hm1 : slaMetSpec targetGeneric tMet = some true := by
    simp [slaMetSpec, slaTargetOf, h1, hr1, targetGeneric]
  have hm2 : slaMetSpec targetGeneric tNoRes = none := by
    simp [slaMetSpec, hr2]
  refine ⟨hr2, ?_, ?_, ?_, ?_⟩
  · simp [slaMetWith_getD, hm2]
  · simp [slaComplianceRate, slaMetWith_getD, hm1, hm2, List.countP_cons]
  · simp [slaComplianceRateSpec, hm1, hm2, List.countP_cons]
  · simp [slaComplianceRate, slaComplianceRateSpec, slaMetWith_getD, hm1, hm2,
      List.countP_cons]

/-- Claim C1 (amended): for every ticket whose resolution duration is
undefined, SLA_Met is the defined boolean `false` (not undefined), and
every compliance-rate aggregation counts such tickets in the denominator
while excluding them from the numerator — i.e. it treats them as SLA
failures rather than excluding them from both sides. -/
theorem sla_met_false_and_counted (tgt : Nat → Option ℚ) (ts : List Ticket) :
    (∀ t ∈ ts, resolutionHoursOf t = none → slaMetWith tgt t = false) ∧
    slaComplianceRate tgt ts =
      (ts.countP (fun t => decide (slaMetSpec tgt t = some true)) : ℚ) / (ts.length : ℚ) := by
  constructor
  · intro t _ h
    simp [slaMetWith, h]
  · unfold slaComplianceRate
    rcases eq_or_ne ts.length 0 with h | h
    · rw [List.length_eq_zero] at h
      subst h
      simp
    · rw [if_neg h, countP_slaMet_eq]

/-- Claim C1 (witness): instantiated on a met ticket and an unresolved
ticket, the unresolved ticket gets SLA_Met `false` and the aggregated
rate is (defined-and-met count) / (all tickets). -/
theorem sla_met_false_and_counted_witness :
    slaMetWith targetGeneric tNoRes = false ∧
    slaComplianceRate targetGeneric [tMet, tNoRes] =
      (List.countP (fun t => decide (slaMetSpec targetGeneric t = some true))
        [tMet, tNoRes] : ℚ) / ((List.length [tMet, tNoRes] : ℚ)) :=
  ⟨(sla_met_false_and_counted targetGeneric [tMet, tNoRes]).1 tNoRes (by simp) rfl,
   (sla_met_false_and_counted targetGeneric [tMet, tNoRes]).2⟩

/-- Claim C2 (confirmed): for every observed priority bucket the
resolution penalty is the step function of the claim — 0 whenever the
bucket compliance rate is at least the 0.90 minimum target, the constant
`at_risk * credit_pct/100` whenever it is below, and the same constant
for any two buckets below the threshold regardless of the size of the
compliance gap. -/
theorem resolution_penalty_step_function (atRisk : ℚ) (p : Nat) (ts ts2 : List Ticket)
    (row row2 : SlaPerfRow)
    (h : slaPerfRowFor atRisk p ts = some row)
    (h2 : slaPerfRowFor atRisk p ts2 = some row2) :
    (9/10 ≤ row.resolutionCompliance → row.resolutionPenalty = 0) ∧
    (row.resolutionCompliance < 9/10 →
      row.resolutionPenalty = atRisk * ((resolutionCreditPct p).getD 0 / 100)) ∧
    (row.resolutionCompliance < 9/10 → row2.resolutionCompliance < 9/10 →
      row.resolutionPenalty = row2.resolutionPenalty) := by
  have key : ∀ (l : List Ticket) (r : SlaPerfRow), slaPerfRowFor atRisk p l = some r →
      (9/10 ≤ r.resolutionCompliance → r.resolutionPenalty = 0) ∧
      (r.resolutionCompliance < 9/10 →
        r.resolutionPenalty = atRisk * ((resolutionCreditPct p).getD 0 / 100)) := by
    intro l r hr
    by_cases hb : (l.filter fun t => priorityNumericOf t = some p).length = 0
    · simp [slaPerfRowFor, hb] at hr
    · simp only [slaPerfRowFor, hb, if_false] at hr
      rw [Option.some.injEq] at hr
      subst hr
      by_cases hc : slaComplianceRate targetBuma
          (l.filter fun t => priorityNumericOf t = some p) < 9/10
      · simp [hc]
      · simp [hc]
  refine ⟨(key ts row h).1, (key ts row h).2, ?_⟩
  intro hlt hlt2
  rw [(key ts row h).2 hlt, (key ts2 row2 h2).2 hlt2]

/-- Claim C2 (witness): with an at-risk amount of 100, a P1 bucket at
compliance 1 pays no penalty and a P1 bucket at compliance 0 pays
exactly 100 * 18/100. -/
theorem resolution_penalty_step_function_witness :
    slaPerfRowFor 100 1 [tMet] = some rowMetP1 ∧
    slaPerfRowFor 100 1 [tP1missed] = some rowMissP1 ∧
    rowMetP1.resolutionPenalty = 0 ∧
    rowMissP1.resolutionPenalty = 100 * ((resolutionCreditPct 1).getD 0 / 100) := by
  have h : priorityNumericOf tMet = some 1 := by decide
  have hr : resolutionHoursOf tMet = some 1 := by
    simp [resolutionHoursOf, resolutionDaysOf, tMet]
  have hm : slaMetWith targetBuma tMet = true := by
    simp [slaMetWith, slaTargetOf, h, hr, targetBuma]
  have hA : slaPerfRowFor 100 1 [tMet] = some rowMetP1 := by
    simp [slaPerfRowFor, slaComplianceRate, h, hm, resolutionCreditPct, rowMetP1]
    norm_num
  have h3 : priorityNumericOf tP1missed = some 1 := by decide
  have hr3 : resolutionHoursOf tP1missed = some 10 := by
    simp [resolutionHoursOf, resolutionDaysOf, tP1missed]
  have hm3 : slaMetWith targetBuma tP1missed = false := by
    simp [slaMetWith, slaTargetOf, h3, hr3, targetBuma]
    norm_num
  have hB : slaPerfRowFor 100 1 [tP1missed] = some rowMissP1 := by
    simp [slaPerfRowFor, slaComplianceRate, h3, hm3, resolutionCreditPct, rowMissP1]
    norm_num
  refine ⟨hA, hB, ?_, ?_⟩
  · exact (resolution_penalty_step_function 100 1 [tMet] [tP1missed]
      rowMetP1 rowMissP1 hA hB).1 (by norm_num [rowMetP1])
  · exact ((resolution_penalty_step_function 100 1 [tP1missed] [tMet]
      rowMissP1 rowMetP1 hB hA).2).1 (by norm_num [rowMissP1])

/-- Helper: what one calculate_rca_metrics row satisfies — its compliance
is exactly the bucket's resolution-SLA compliance rate, and its penalty
is the step at the single 95% threshold with 4% (P1) / 3% (other)
weights. -/
theorem rca_row_spec (atRisk : ℚ) (p : Nat) (ts : List Ticket) (row : RcaRow)
    (h : calculate_rca_metrics atRisk p ts = some row) :
    row.priority = p ∧
    (∃ perf, slaPerfRowFor atRisk p ts = some perf ∧
      row.rcaCompliance = perf.resolutionCompliance) ∧
    (95/100 ≤ row.rcaCompliance → row.penalty = 0) ∧
    (row.rcaCompliance < 95/100 →
      row.penalty = atRisk * (if p = 1 then 4/100 else 3/100)) := by
  by_cases hb : (ts.filter fun t => priorityNumericOf t = some p).length = 0
  · simp [calculate_rca_metrics, hb] at h
  · simp only [calculate_rca_metrics, hb, if_false] at h
    rw [Option.some.injEq] at h
    subst h
    have hpos : 0 < (ts.filter fun t => priorityNumericOf t = some p).length :=
      Nat.pos_of_ne_zero hb
    refine ⟨rfl, ⟨?_, ?_, ?_⟩, ?_, ?_⟩
    · exact
        { totalTickets := (ts.filter fun t => priorityNumericOf t = some p).length
          resolutionCompliance :=
            slaComplianceRate targetBuma (ts.filter fun t => priorityNumericOf t = some p)
          creditPct := (resolutionCreditPct p).getD 0
          resolutionPenalty :=
            if slaComplianceRate targetBuma (ts.filter fun t => priorityNumericOf t = some p)
                < 9/10 then
              atRisk * ((resolutionCreditPct p).getD 0 / 100)
            else 0
          statusPass :=
            decide (9/10 ≤
              slaComplianceRate targetBuma (ts.filter fun t => priorityNumericOf t = some p)) }
    · simp [slaPerfRowFor, hb]
    · simp [slaComplianceRate, hb, hpos]
    · intro hge
      simp only []
      rw [if_pos hge]
    · intro hlt
      simp only []
      rw [if_neg (not_le.mpr hlt)]

/-- Claim C3 (confirmed): every row of the RCA table comes from priority
rank 1 or 2 only, its RCA compliance equals that priority's
resolution-SLA compliance rate (the documented proxy), and its penalty is
0 exactly at or above the single 95% threshold and `at_risk * 4%` (rank 1)
or `at_risk * 3%` (rank 2) below it. -/
theorem rca_proxy_single_threshold (atRisk : ℚ) (ts : List Ticket) (row : RcaRow)
    (h : row ∈ rcaMetricsList atRisk ts) :
    (row.priority = 1 ∨ row.priority = 2) ∧
    (∃ perf, slaPerfRowFor atRisk row.priority ts = some perf ∧
      row.rcaCompliance = perf.resolutionCompliance) ∧
    (95/100 ≤ row.rcaCompliance → row.penalty = 0) ∧
    (row.rcaCompliance < 95/100 →
      row.penalty = atRisk * (if row.priority = 1 then 4/100 else 3/100)) := by
  simp only [rcaMetricsList, List.filterMap_cons, List.filterMap_nil, id] at h
  rcases h1 : calculate_rca_metrics atRisk 1 ts with _ | r1 <;>
    rcases h2 : calculate_rca_metrics atRisk 2 ts with _ | r2 <;>
      simp [h1, h2, List.mem_cons] at h
  · obtain rfl := h
    obtain ⟨hp, hrest⟩ := rca_row_spec atRisk 2 ts row h2
    rw [hp]
    exact ⟨Or.inr rfl, hrest⟩
  · obtain rfl := h
    obtain ⟨hp, hrest⟩ := rca_row_spec atRisk 1 ts row h1
    rw [hp]
    exact ⟨Or.inl rfl, hrest⟩
  · rcases h with rfl | rfl
    · obtain ⟨hp, hrest⟩ := rca_row_spec atRisk 1 ts row h1
      rw [hp]
      exact ⟨Or.inl rfl, hrest⟩
    · obtain ⟨hp, hrest⟩ := rca_row_spec atRisk 2 ts row h2
      rw [hp]
      exact ⟨Or.inr rfl, hrest⟩

/-- Claim C3 (witness): a single met P1 ticket yields the RCA row with
compliance 1 (the bucket's resolution compliance), priority in {1, 2},
and penalty 0. -/
theorem rca_proxy_single_threshold_witness :
    rcaRowP1 ∈ rcaMetricsList 100 [tMet] ∧
    (rcaRowP1.priority = 1 ∨ rcaRowP1.priority = 2) ∧
    rcaRowP1.penalty = 0 := by
  have h : priorityNumericOf tMet = some 1 := by decide
  have hr : resolutionHoursOf tMet = some 1 := by
    simp [resolutionHoursOf, resolutionDaysOf, tMet]
  have hm : slaMetWith targetBuma tMet = true := by
    simp [slaMetWith, slaTargetOf, h, hr, targetBuma]
  have h1 : calculate_rca_metrics 100 1 [tMet] = some rcaRowP1 := by
    simp [calculate_rca_metrics, h, hm, rcaRowP1]
    norm_num
  have h2 : calculate_rca_metrics 100 2 [tMet] = none := by
    simp [calculate_rca_metrics, h]
  have hmem : rcaRowP1 ∈ rcaMetricsList 100 [tMet] := by
    simp [rcaMetricsList, h1, h2]
  refine ⟨hmem, (rca_proxy_single_threshold 100 [tMet] rcaRowP1 hmem).1, ?_⟩
  exact (rca_proxy_single_threshold 100 [tMet] rcaRowP1 hmem).2.2.1 (by norm_num [rcaRowP1])

/-- Helper: casting the extracted priority column succeeds when every cell
extracted a digit. -/
theorem astypeInt_ok_of_all_some (xs : List (Option Nat)) (h : ∀ x ∈ xs, x.isSome) :
    ∃ v, astypeInt xs = Except.ok v := by
  induction xs with
  | nil => exact ⟨[], rfl⟩
  | cons a l ih =>
    cases a with
    | none => exact absurd (h none (List.mem_cons_self _ _)) (by simp)
    | some n =>
      obtain ⟨v, hv⟩ := ih (fun x hx => h x (List.mem_cons_of_mem _ hx))
      exact ⟨n :: v, by simp [astypeInt, hv]⟩

/-- Helper: casting the extracted priority column raises as soon as any
cell extracted nothing. -/
theorem astypeInt_error_of_none (xs : List (Option Nat)) (h : ∃ x ∈ xs, x = none) :
    astypeInt xs = Except.error "IntCastingNaNError" := by
  induction xs with
  | nil => simp at h
  | cons a l ih =>
    cases a with
    | none => rfl
    | some n =>
      obtain ⟨x, hx, hnone⟩ := h
      rcases List.mem_cons.mp hx with rfl | hmem
      · exact absurd hnone (by simp)
      · rw [astypeInt, ih ⟨x, hmem, hnone⟩]

/-- Claim C4 (counterexample): a batch containing one priority label with
no digit makes load_data's `.astype(int)` raise, aborting the whole load;
the same batch without the digit-less row loads fine. The record is not
flagged with an undefined rank and is not retained. -/
theorem load_digitless_counterexample :
    loadPriorityRanks [some "2 - High", some "High"] =
      Except.error "IntCastingNaNError" ∧
    loadPriorityRanks [some "2 - High"] = Except.ok [2] :=
  ⟨rfl, rfl⟩

/-- Claim C4 (amended): when a priority label contains no digit (or is
missing), the whole-column integer cast fails and the batch load aborts
with an error instead of flagging the record with an undefined rank and
retaining it; the load succeeds only when every label contains a digit. -/
theorem load_aborts_on_digitless (labels : List (Option String)) :
    ((∀ l ∈ labels, (strExtractDigits l).isSome) →
      ∃ ranks, loadPriorityRanks labels = Except.ok ranks) ∧
    ((∃ l ∈ labels, strExtractDigits l = none) →
      loadPriorityRanks labels = Except.error "IntCastingNaNError") := by
  constructor
  · intro h
    exact astypeInt_ok_of_all_some _ (by
      intro x hx
      obtain ⟨l, hl, rfl⟩ := List.mem_map.mp hx
      exact h l hl)
  · intro ⟨l, hl, hnone⟩
    exact astypeInt_error_of_none _ ⟨strExtractDigits l, List.mem_map_of_mem _ hl, hnone⟩

/-- Claim C4 (witness): a batch of digit-bearing labels loads, a batch
with one digit-less label aborts. -/
theorem load_aborts_on_digitless_witness :
    (∃ ranks, loadPriorityRanks [some "P1", some "2 - High"] = Except.ok ranks) ∧
    loadPriorityRanks [some "P1", some "High"] = Except.error "IntCastingNaNError" :=
  ⟨(load_aborts_on_digitless [some "P1", some "2 - High"]).1 (by decide),
   (load_aborts_on_digitless [some "P1", some "High"]).2 ⟨some "High", by decide, rfl⟩⟩

/-- Claim C5 (confirmed): for every non-empty record set the displayed
quality score is computed from the issue count that is the simple sum of
the eight counted rule results, and the score equals
`max(0, 100 - issues/total*100)`, clamped at zero, never negative. -/
theorem quality_score_sum_and_clamp (now : ℚ) (ts : List Ticket) (h : ts ≠ []) :
    renderQualityScore now ts = some (qualityScore (qualityIssuesCount now ts) ts.length) ∧
    qualityIssuesCount now ts =
      check_unusual_resolution ts + check_resolved_without_opened ts +
      check_closed_without_resolution ts + check_open_with_resolution ts +
      check_missing_critical_fields ts + check_duplicate_tickets ts +
      check_future_dates now ts + check_orphaned_tickets ts ∧
    qualityScore (qualityIssuesCount now ts) ts.length =
      max 0 (100 - (qualityIssuesCount now ts : ℚ) / (ts.length : ℚ) * 100) ∧
    0 ≤ qualityScore (qualityIssuesCount now ts) ts.length := by
  refine ⟨?_, by simp [qualityIssuesCount], rfl, le_max_left _ _⟩
  rw [renderQualityScore, if_neg (by simpa using h)]

/-- Claim C5 (witness): one ticket violating five rule instances (closed
without resolution, four missing critical fields) gives issue count 5 out
of 1 ticket, and the score clamps to 0 rather than going to -400. -/
theorem quality_score_sum_and_clamp_witness :
    renderQualityScore 0 [tBad] = some (qualityScore (qualityIssuesCount 0 [tBad]) 1) ∧
    qualityIssuesCount 0 [tBad] = 5 ∧
    renderQualityScore 0 [tBad] = some 0 := by
  have hq : qualityIssuesCount 0 [tBad] = 5 := by decide
  have h1 := (quality_score_sum_and_clamp 0 [tBad] (by simp)).1
  refine ⟨by simpa using h1, hq, ?_⟩
  rw [h1, hq]
  norm_num [qualityScore]

/-- Claim C6 (confirmed): the duplicate rule's count is the size of its
violating subset, and that subset keeps every occurrence of a ticket
whose number appears at least twice while dropping every ticket whose
number appears once. -/
theorem duplicate_rule_counts_all_occurrences (ts : List Ticket) (t : Ticket) :
    check_duplicate_tickets ts = (duplicateTicketsSubset ts).length ∧
    (2 ≤ ts.countP (fun u => u.number = t.number) →
      (duplicateTicketsSubset ts).count t = ts.count t) ∧
    (ts.countP (fun u => u.number = t.number) < 2 →
      (duplicateTicketsSubset ts).count t = 0) := by
  refine ⟨rfl, ?_, ?_⟩
  · intro h
    exact List.count_filter (by simpa using h)
  · intro h
    rw [List.count_eq_zero]
    intro hmem
    rw [duplicateTicketsSubset, List.mem_filter] at hmem
    have := hmem.2
    simp at this
    omega

/-- Claim C6 (witness): for ids [A, A, B] the violating subset has size 2
(both A occurrences), and B does not appear in it. -/
theorem duplicate_rule_counts_all_occurrences_witness :
    check_duplicate_tickets [tA, tA, tB] = 2 ∧
    (duplicateTicketsSubset [tA, tA, tB]).count tA = List.count tA [tA, tA, tB] ∧
    (duplicateTicketsSubset [tA, tA, tB]).count tB = 0 :=
  ⟨by decide, (duplicate_rule_counts_all_occurrences [tA, tA, tB] tA).2.1 (by decide),
   (duplicate_rule_counts_all_occurrences [tA, tA, tB] tB).2.2 (by decide)⟩

/-- Helper: looking a key up in a keyed table whose first block maps each
key of `cs` to a row yields that row. -/
theorem rowFor_map_append (cs : List String) (f : String → List Nat)
    (rest : List (String × List Nat)) (c : String) (hc : c ∈ cs) :
    rowFor ((cs.map fun x => (x, f x)) ++ rest) c = some (f c) := by
  induction cs with
  | nil => cases hc
  | cons a l ih =>
    by_cases hac : a = c
    · subst hac
      simp [rowFor]
    · rcases List.mem_cons.mp hc with rfl | hmem
      · exact absurd rfl hac
      · simp only [List.map_cons, List.cons_append, rowFor, hac, if_false]
        exact ih hmem

/-- Helper: a month present among the columns has an index, and the
mapped row holds the mapped value at that index. -/
theorem monthIndex_map_get {α : Type} (l : List String) (f : String → α) (m : String)
    (hm : m ∈ l) :
    ∃ i, monthIndex l m = some i ∧ (l.map f).get? i = some (f m) := by
  induction l with
  | nil => cases hm
  | cons a rest ih =>
    by_cases ham : a = m
    · subst ham
      exact ⟨0, by simp [monthIndex], by simp⟩
    · rcases List.mem_cons.mp hm with rfl | hmem
      · exact absurd rfl ham
      · obtain ⟨i, h1, h2⟩ := ih hmem
        refine ⟨i + 1, ?_, by simpa using h2⟩
        simp [monthIndex, ham, h1]

/-- Claim C7 (confirmed): for every observed channel and observed month
the displayed pivot holds an explicit cell equal to that combination's
ticket count — in particular an explicit 0 when the combination has no
tickets — and the table carries a synthetic Grand Total row whose entry
at each month is the sum of that month's column over all channels. -/
theorem monthly_pivot_zero_fill_and_total (ts : List Ticket) (c m : String)
    (hc : c ∈ pivotChannels ts) (hm : m ∈ pivotMonths ts) :
    pivotLookup (channelPivotWithTotal ts) (pivotMonths ts) c m = some (pivotCell ts c m) ∧
    ((∀ t ∈ ts, ¬(t.channel = some c ∧ yearMonthOf t = m)) →
      pivotLookup (channelPivotWithTotal ts) (pivotMonths ts) c m = some 0) ∧
    ("Grand Total", grandTotalRow ts) ∈ channelPivotWithTotal ts ∧
    (∃ i, monthIndex (pivotMonths ts) m = some i ∧
      (grandTotalRow ts).get? i =
        some (((pivotChannels ts).map (fun ch => pivotCell ts ch m)).sum)) := by
  have hrow : rowFor (channelPivotWithTotal ts) c =
      some ((pivotMonths ts).map (fun mm => pivotCell ts c mm)) := by
    rw [channelPivotWithTotal, channelPivot]
    exact rowFor_map_append (pivotChannels ts)
      (fun ch => (pivotMonths ts).map (fun mm => pivotCell ts ch mm)) _ c hc
  obtain ⟨i, hi, hgeti⟩ :=
    monthIndex_map_get (pivotMonths ts) (fun mm => pivotCell ts c mm) m hm
  have hmain :
      pivotLookup (channelPivotWithTotal ts) (pivotMonths ts) c m = some (pivotCell ts c m) := by
    rw [pivotLookup, hrow, hi]
    exact hgeti
  refine ⟨hmain, ?_, ?_, ?_⟩
  · intro hnone
    have hzero : pivotCell ts c m = 0 := by
      rw [pivotCell, List.countP_eq_zero]
      intro t ht
      have hts : t ∈ ts := (List.mem_filter.mp ht).1
      have := hnone t hts
      simp only [Bool.and_eq_true, decide_eq_true_eq]
      intro hcontra
      exact this hcontra
    rw [hmain, hzero]
  · rw [channelPivotWithTotal]
    exact List.mem_append_right _ (List.mem_singleton_self _)
  · obtain ⟨j, hj, hgetj⟩ :=
      monthIndex_map_get (pivotMonths ts)
        (fun mm => ((pivotChannels ts).map (fun ch => pivotCell ts ch mm)).sum) m hm
    exact ⟨j, hj, hgetj⟩

/-- Claim C7 (witness): with channels {Email, Phone} over months
{1970-01, 1970-02} and no Phone ticket in January, the pivot holds an
explicit `some 0` cell for (Phone, 1970-01), the Email January cell
holds its count 1, and the Grand Total row is present. -/
theorem monthly_pivot_zero_fill_and_total_witness :
    pivotLookup (channelPivotWithTotal [tCh1, tCh2, tCh3]) (pivotMonths [tCh1, tCh2, tCh3])
      "Phone" "1970-01" = some 0 ∧
    pivotLookup (channelPivotWithTotal [tCh1, tCh2, tCh3]) (pivotMonths [tCh1, tCh2, tCh3])
      "Email" "1970-01" = some (pivotCell [tCh1, tCh2, tCh3] "Email" "1970-01") ∧
    pivotCell [tCh1, tCh2, tCh3] "Email" "1970-01" = 1 ∧
    ("Grand Total", grandTotalRow [tCh1, tCh2, tCh3]) ∈
      channelPivotWithTotal [tCh1, tCh2, tCh3] := by
  have h1 : yearMonthOf tCh1 = "1970-01" := by
    have hd : (⌊(0 : ℚ) / 24⌋ : ℤ) = 0 := by norm_num
    simp [yearMonthOf, tCh1, hd]
    decide
  have h2 : yearMonthOf tCh2 = "1970-02" := by
    have hd : (⌊(744 : ℚ) / 24⌋ : ℤ) = 31 := by norm_num
    simp [yearMonthOf, tCh2, hd]
    decide
  have h3 : yearMonthOf tCh3 = "1970-02" := by
    have hd : (⌊(768 : ℚ) / 24⌋ : ℤ) = 32 := by norm_num
    simp [yearMonthOf, tCh3, hd]
    decide
  have hrows : channelRows [tCh1, tCh2, tCh3] = [tCh1, tCh2, tCh3] := by decide
  have hmonths : pivotMonths [tCh1, tCh2, tCh3] = ["1970-01", "1970-02"] := by
    rw [pivotMonths, hrows]
    simp only [List.map_cons, List.map_nil, h1, h2, h3]
    decide
  have hchannels : pivotChannels [tCh1, tCh2, tCh3] = ["Email", "Phone"] := by
    rw [pivotChannels, hrows]
    decide
  have hmPhone : ("Phone" : String) ∈ pivotChannels [tCh1, tCh2, tCh3] := by
    rw [hchannels]; decide
  have hmEmail : ("Email" : String) ∈ pivotChannels [tCh1, tCh2, tCh3] := by
    rw [hchannels]; decide
  have hmJan : ("1970-01" : String) ∈ pivotMonths [tCh1, tCh2, tCh3] := by
    rw [hmonths]; decide
  have hnone : ∀ t ∈ [tCh1, tCh2, tCh3],
      ¬(t.channel = some "Phone" ∧ yearMonthOf t = "1970-01") := by
    intro t ht
    rcases List.mem_cons.mp ht with rfl | ht
    · intro hcon; exact absurd hcon.1 (by decide)
    · rcases List.mem_cons.mp ht with rfl | ht
      · intro hcon; exact absurd hcon.1 (by decide)
      · rcases List.mem_cons.mp ht with rfl | ht
        · intro hcon
          rw [h3] at hcon
          exact absurd hcon.2 (by decide)
        · cases ht
  refine ⟨(monthly_pivot_zero_fill_and_total [tCh1, tCh2, tCh3]
            "Phone" "1970-01" hmPhone hmJan).2.1 hnone,
          (monthly_pivot_zero_fill_and_total [tCh1, tCh2, tCh3]
            "Email" "1970-01" hmEmail hmJan).1, ?_,
          (monthly_pivot_zero_fill_and_total [tCh1, tCh2, tCh3]
            "Email" "1970-01" hmEmail hmJan).2.2.1⟩
  rw [pivotCell, hrows]
  simp only [List.countP_cons, List.countP_nil, h1, h2, h3]
  decide

/-- Helper: inclusion-exclusion for boolean predicate counts. -/
theorem countP_or_add_and {α : Type} (p q : α → Bool) (l : List α) :
    l.countP (fun a => p a || q a) + l.countP (fun a => p a && q a) =
      l.countP p + l.countP q := by
  induction l with
  | nil => rfl
  | cons a l ih =>
    simp only [List.countP_cons]
    cases hp : p a <;> cases hq : q a <;> simp [hp, hq] <;> omega

/-- Claim C8 (counterexample): a single ticket whose opened and resolved
timestamps are both in the future is one violating record, but the
future-dates rule reports 2 — it is not the size of the violating
subset. -/
theorem future_dates_counterexample :
    check_future_dates 0 [tBothFuture] = 2 ∧
    (futureDatesSubset 0 [tBothFuture]).length = 1 ∧
    check_future_dates 0 [tBothFuture] ≠ (futureDatesSubset 0 [tBothFuture]).length :=
  ⟨by decide, by decide, by decide⟩

/-- Claim C8 (amended): the future-dates rule returns the number of
future opened timestamps plus the number of future resolved timestamps —
equivalently, the size of the violating subset plus the number of records
with both timestamps in the future, so such records are counted twice,
not once. -/
theorem future_dates_counts_fields_separately (now : ℚ) (ts : List Ticket) :
    check_future_dates now ts =
      (futureDatesSubset now ts).length +
        (ts.filter (fun t => optAfter t.openedAt now && optAfter t.resolvedAt now)).length := by
  unfold check_future_dates futureDatesSubset
  simp only [← List.countP_eq_length_filter]
  have := countP_or_add_and (fun t => optAfter t.openedAt now)
    (fun t => optAfter t.resolvedAt now) ts
  omega

/-- Claim C10 (confirmed): the two display-only checks (active tickets
without a resolution date; missing/invalid configuration items) return 0
for every record set, so the accumulated issue count — and therefore the
quality score — depends only on the eight counted rules. -/
theorem extra_checks_contribute_zero (now : ℚ) (ts : List Ticket) :
    check_unresolved_active ts = 0 ∧
    check_missing_ci ts = 0 ∧
    qualityIssuesCount now ts =
      check_unusual_resolution ts + check_resolved_without_opened ts +
      check_closed_without_resolution ts + check_open_with_resolution ts +
      check_missing_critical_fields ts + check_duplicate_tickets ts +
      check_future_dates now ts + check_orphaned_tickets ts ∧
    renderQualityScore now ts =
      (if ts.length = 0 then none
       else some (qualityScore
        (check_unusual_resolution ts + check_resolved_without_opened ts +
         check_closed_without_resolution ts + check_open_with_resolution ts +
         check_missing_critical_fields ts + check_duplicate_tickets ts +
         check_future_dates now ts + check_orphaned_tickets ts) ts.length)) := by
  refine ⟨rfl, rfl, by simp [qualityIssuesCount], ?_⟩
  rw [renderQualityScore]
  congr 1
  simp [qualityIssuesCount]
